import Mathlib

/-!
Shallow embedding of the quiz-generator dashboard client.

The embedding follows the source files:
* TakeQuiz (src/unnamed/part_001): quiz loading, the one-second timer effect,
  answer selection, navigation controls and `handleSubmitQuiz`.
* Analytics (src/src/pages/Analytics.tsx): `loadAnalytics` fetch ordering and
  `calculateStats` (the improvement metric).
* QuizHistory (src/unnamed/part_002): `filteredAttempts` (search / difficulty
  filter and sorting).

JavaScript numbers that only ever hold integral values are modelled as `Int`
(or `Nat` for counts and indices); the one place where a non-integral value
arises (the score ratio) is modelled as `Rat`, with `Math.round` embedded as
Mathlib's `round` (both are floor of x + 1/2).  `Math.round(0/0)` (the score
of an empty quiz) is `NaN`; a possibly-NaN integer result is modelled as
`Option Int` with `none` for NaN.
-/

namespace QuizApp

/-- Embedding of `String.prototype.toLowerCase` (ASCII-relevant part). -/
def jsToLower (s : String) : String := String.mk (s.data.map Char.toLower)

/-- Character sequence `needle` occurs at the head of `hay`. -/
def seqLeads : List Char → List Char → Bool
  | [], _ => true
  | _ :: _, [] => false
  | a :: as, b :: bs => a == b && seqLeads as bs

/-- Character sequence `needle` occurs somewhere in `hay`. -/
def seqOccurs (needle : List Char) : List Char → Bool
  | [] => seqLeads needle []
  | b :: bs => seqLeads needle (b :: bs) || seqOccurs needle bs

/-- Embedding of `s.includes(sub)` on JavaScript strings. -/
def jsIncludes (s sub : String) : Bool := seqOccurs sub.data s.data

/-- Embedding of `s.toLowerCase().includes(sub.toLowerCase())`, the
case-insensitive containment test used by the history filter. -/
def ciContains (s sub : String) : Bool := jsIncludes (jsToLower s) (jsToLower sub)

/-- A quiz question as used by TakeQuiz: `question.id` and
`question.correctAnswer` (the correct option index). -/
structure Question where
  id : String
  correctAnswer : Nat
deriving DecidableEq

/-- The quiz record as parsed by `loadQuiz` in TakeQuiz: `Number(quiz.isTimed)`
is kept as the already-coerced number `isTimedNum`; `timeLimit` is `none` when
the stored field is absent (JavaScript `undefined`). -/
structure QuizData where
  qid : String
  isTimedNum : Int
  timeLimit : Option Int
  questions : List Question
deriving DecidableEq

/-- The `results` state set by `handleSubmitQuiz` on success
(`{ score, correctAnswers, totalQuestions }`).  `score` is `Option Int`
because the computed score is NaN for an empty quiz. -/
structure Results where
  score : Option Int
  correctAnswers : Nat
  totalQuestions : Nat
deriving DecidableEq

/-- The TakeQuiz component state after a successful `loadQuiz`: the React
state fields `answers`, `currentQuestionIndex`, `startTime` (epoch ms),
`timeLeft`, `isCompleted`, `results`, plus the alert surfaced on a failed
submission. -/
structure Session where
  answers : List (String × Nat)
  currentQuestionIndex : Int
  startTimeMs : Int
  timeLeft : Int
  isCompleted : Bool
  results : Option Results
  alertMsg : Option String
deriving DecidableEq

/-- The record passed to `blink.db.quizAttempts.create` by `handleSubmitQuiz`
(the generated id and the user id are omitted: they are opaque strings from
the external collaborators). -/
structure AttemptRecord where
  quizId : String
  answers : List (String × Nat)
  score : Option Int
  totalQuestions : Nat
  timeSpent : Int
  completedAtMs : Int
deriving DecidableEq

/-- The `correctAnswers` counter of `handleSubmitQuiz`: the number of
questions whose recorded answer strictly equals `question.correctAnswer`
(`answers[question.id] === question.correctAnswer`; an absent entry is
`undefined` and never equal). -/
def correctAnswersOf (q : QuizData) (answers : List (String × Nat)) : Nat :=
  q.questions.countP fun question =>
    decide (answers.lookup question.id = some question.correctAnswer)

/-- The score expression of `handleSubmitQuiz`:
`Math.round((correctAnswers / quiz.questions.length) * 100)`.
For `n = 0` the JavaScript value is `Math.round(0/0) = NaN`, modelled `none`. -/
def computeScore (c n : Nat) : Option Int :=
  if n = 0 then none
  else some (round (((c : ℚ) / (n : ℚ)) * 100))

/-- Embedding of `handleSubmitQuiz` (TakeQuiz).  `persistOk` is the outcome of
the awaited `blink.auth.me` / `blink.db.quizAttempts.create` calls: on success
the attempt record is created, `results` is set and `isCompleted` becomes
true; on a thrown error the catch block only raises an alert.  The returned
list holds the records persisted by this invocation.  The guard
`if (!quiz || !startTime) return` always passes here because `Session` models
the state after a successful load. -/
def handleSubmitQuiz (q : QuizData) (nowMs : Int) (persistOk : Bool) (s : Session) :
    Session × List AttemptRecord :=
  let timeSpent := Int.fdiv (nowMs - s.startTimeMs) 1000
  let c := correctAnswersOf q s.answers
  let score := computeScore c q.questions.length
  if persistOk then
    ({ s with isCompleted := true,
              results := some { score := score, correctAnswers := c,
                                totalQuestions := q.questions.length } },
     [{ quizId := q.qid, answers := s.answers, score := score,
        totalQuestions := q.questions.length, timeSpent := timeSpent,
        completedAtMs := nowMs }])
  else
    ({ s with alertMsg := some "Failed to submit quiz" }, [])

/-- The timer initialisation of `loadQuiz`:
`if (Number(quiz.isTimed) > 0 && quiz.timeLimit) setTimeLeft(timeLimit * 60)
else setTimeLeft(0)` (a `0` or absent `timeLimit` is falsy). -/
def initTimeLeft (q : QuizData) : Int :=
  match q.timeLimit with
  | some limit => if 0 < q.isTimedNum ∧ limit ≠ 0 then limit * 60 else 0
  | none => 0

/-- Session state right after `loadQuiz` succeeds. -/
def initSession (q : QuizData) (startMs : Int) : Session :=
  { answers := [], currentQuestionIndex := 0, startTimeMs := startMs,
    timeLeft := initTimeLeft q, isCompleted := false, results := none,
    alertMsg := none }

/-- One firing of the timer-effect interval callback: the effect body
returns early when `isCompleted` is set, when `Number(quiz.isTimed) === 0`,
or when `timeLeft === 0` (no interval is installed); otherwise the callback
runs `setTimeLeft(prev => prev <= 1 ? (handleSubmitQuiz(), 0) : prev - 1)`.
The returned flag records whether `handleSubmitQuiz` was invoked on this
tick (its asynchronous completion is modelled separately). -/
def tick (q : QuizData) (s : Session) : Session × Bool :=
  if s.isCompleted then (s, false)
  else if q.isTimedNum = 0 ∨ s.timeLeft = 0 then (s, false)
  else if s.timeLeft ≤ 1 then ({ s with timeLeft := 0 }, true)
  else ({ s with timeLeft := s.timeLeft - 1 }, false)

/-- Run `n` one-second ticks, counting how many of them invoked
`handleSubmitQuiz` automatically. -/
def tickRun (q : QuizData) : Session → Nat → Session × Nat
  | s, 0 => (s, 0)
  | s, n + 1 =>
    let step := tick q s
    let rest := tickRun q step.1 n
    (rest.1, (if step.2 then 1 else 0) + rest.2)

/-- The Previous button handler:
`setCurrentQuestionIndex(prev => Math.max(0, prev - 1))`. -/
def prevClick (i : Int) : Int := max 0 (i - 1)

/-- The Next button handler:
`setCurrentQuestionIndex(prev => Math.min(quiz.questions.length - 1, prev + 1))`. -/
def nextClick (n : Nat) (i : Int) : Int := min ((n : Int) - 1) (i + 1)

/-- The current question `quiz.questions[currentQuestionIndex]`
(JavaScript indexing yields `undefined` out of range). -/
def questionAt (q : QuizData) (i : Int) : Option Question :=
  if 0 ≤ i then q.questions.get? i.toNat else none

/-- The Next button `disabled` condition:
`answers[currentQuestion.id] === undefined`. -/
def nextDisabled (q : QuizData) (answers : List (String × Nat)) (i : Int) : Bool :=
  match questionAt q i with
  | some question => (answers.lookup question.id).isNone
  | none => true

/-- The Previous button `disabled` condition: `currentQuestionIndex === 0`
(it does not consult the answer map). -/
def prevDisabled (i : Int) : Bool := decide (i = 0)

/-- Two invocations of `handleSubmitQuiz` where the second begins before the
first invocation's awaited create call has resolved: both read the same
pre-submission React state (state updates from the first land only when its
promise resolves), and the function's only early return is
`if (!quiz || !startTime) return` — it checks neither `isCompleted` nor an
in-flight flag.  The result is the concatenation of the records persisted by
the two invocations. -/
def overlappingSubmitRecords (q : QuizData) (now1 now2 : Int) (s : Session) :
    List AttemptRecord :=
  (handleSubmitQuiz q now1 true s).2 ++ (handleSubmitQuiz q now2 true s).2

/-- An attempt as seen by the Analytics page: its numeric score
(`Number(attempt.score) || 0`) and its completion timestamp. -/
structure AttemptView where
  score : Int
  completedAtMs : Int
deriving DecidableEq

/-- Newest-first order on attempts, as requested from the record store by
`loadAnalytics` (`orderBy: { completedAt: 'desc' }`). -/
def attDesc (a b : AttemptView) : Prop := b.completedAtMs ≤ a.completedAtMs

instance : DecidableRel attDesc := fun a b => Int.decLe _ _

/-- Oldest-first order on attempts (ascending completion timestamp). -/
def attAsc (a b : AttemptView) : Prop := a.completedAtMs ≤ b.completedAtMs

instance : DecidableRel attAsc := fun a b => Int.decLe _ _

/-- The attempt list as it reaches the Analytics component state: the store
returns it ordered by completion timestamp descending. -/
def orderByCompletedAtDesc (l : List AttemptView) : List AttemptView :=
  List.insertionSort attDesc l

/-- The improvement metric of `calculateStats` (Analytics), applied to the
score list in component-state order:
`firstHalf = scores.slice(0, floor(n/2))`, `secondHalf = scores.slice(floor(n/2))`,
`improvement = Math.round(secondAvg - firstAvg)` when `n >= 4`, else `0`
(the early return for an empty list also yields `0`). -/
def improvement (scores : List Int) : Int :=
  if 4 ≤ scores.length then
    let firstHalf := scores.take (scores.length / 2)
    let secondHalf := scores.drop (scores.length / 2)
    let firstAvg : ℚ := ((firstHalf.map fun x => (x : ℚ)).sum) / (firstHalf.length : ℚ)
    let secondAvg : ℚ := ((secondHalf.map fun x => (x : ℚ)).sum) / (secondHalf.length : ℚ)
    round (secondAvg - firstAvg)
  else 0

/-- The improvement value the Analytics page computes for a given set of
attempts: `calculateStats` runs on `filteredAttempts`, which preserves the
descending fetch order of `loadAnalytics`. -/
def analyticsImprovement (l : List AttemptView) : Int :=
  improvement ((orderByCompletedAtDesc l).map fun a => a.score)

/-- Improvement metric written from the spec's words: the mean score of the
second half of the time-ascending window minus the mean of its first half,
rounded to an integer, and `0` when the window holds fewer than 4 attempts. -/
def specImprovement (l : List AttemptView) : Int :=
  let scores := (List.insertionSort attAsc l).map fun a => a.score
  if 4 ≤ scores.length then
    let firstHalf := scores.take (scores.length / 2)
    let secondHalf := scores.drop (scores.length / 2)
    round ((((secondHalf.map fun x => (x : ℚ)).sum) / (secondHalf.length : ℚ)) -
           (((firstHalf.map fun x => (x : ℚ)).sum) / (firstHalf.length : ℚ)))
  else 0

/-- The quiz fields consulted by the history filter (an attempt joined with
its quiz). -/
structure QuizInfo where
  title : String
  topic : String
  difficulty : String
deriving DecidableEq

/-- An attempt row of the QuizHistory page, joined with its quiz. -/
structure HAttempt where
  quiz : QuizInfo
  score : Int
  completedAtMs : Int
deriving DecidableEq

/-- The `matchesSearch` conjunct of the QuizHistory filter:
`!searchTerm || title.toLowerCase().includes(term.toLowerCase())
|| topic.toLowerCase().includes(term.toLowerCase())`. -/
def matchesSearch (searchTerm : String) (qz : QuizInfo) : Bool :=
  searchTerm == "" || ciContains qz.title searchTerm || ciContains qz.topic searchTerm

/-- The `matchesDifficulty` conjunct of the QuizHistory filter:
`difficultyFilter === 'all' || quiz.difficulty === difficultyFilter`. -/
def matchesDifficulty (difficultyFilter : String) (qz : QuizInfo) : Bool :=
  difficultyFilter == "all" || qz.difficulty == difficultyFilter

/-- Sort key comparison of the QuizHistory sort: by completion timestamp
descending when sorting by date, by score descending otherwise. -/
def histKeyLe (byDate : Bool) (a b : HAttempt) : Bool :=
  if byDate then decide (b.completedAtMs ≤ a.completedAtMs)
  else decide (b.score ≤ a.score)

/-- Propositional form of `histKeyLe`, for the sort. -/
def histRel (byDate : Bool) (a b : HAttempt) : Prop := histKeyLe byDate a b = true

instance (byDate : Bool) : DecidableRel (histRel byDate) :=
  fun a b => instDecidableEqBool _ _

/-- The `filteredAttempts` pipeline of QuizHistory: filter by search term and
difficulty, then sort (descending by date or by score). -/
def filteredAttempts (searchTerm difficultyFilter : String) (byDate : Bool)
    (l : List HAttempt) : List HAttempt :=
  List.insertionSort (histRel byDate)
    (l.filter fun a => matchesSearch searchTerm a.quiz &&
                       matchesDifficulty difficultyFilter a.quiz)

/-! Concrete instances used by the scenario witnesses. -/

/-- A four-question quiz with correct answers at option indices 0, 1, 2, 3. -/
def c1Quiz : QuizData :=
  { qid := "quiz1", isTimedNum := 0, timeLimit := none,
    questions := [{ id := "q1", correctAnswer := 0 }, { id := "q2", correctAnswer := 1 },
                  { id := "q3", correctAnswer := 2 }, { id := "q4", correctAnswer := 3 }] }

/-- A session over `c1Quiz` that answered the first three questions correctly
and left the fourth unanswered. -/
def c1Session : Session :=
  { answers := [("q1", 0), ("q2", 1), ("q3", 2)], currentQuestionIndex := 3,
    startTimeMs := 0, timeLeft := 0, isCompleted := false, results := none,
    alertMsg := none }

/-- A one-minute timed single-question quiz. -/
def c4Quiz : QuizData :=
  { qid := "quizT", isTimedNum := 1, timeLimit := some 1,
    questions := [{ id := "q1", correctAnswer := 0 }] }

/-- An untimed single-question quiz. -/
def c5Quiz : QuizData :=
  { qid := "quizU", isTimedNum := 0, timeLimit := some 5,
    questions := [{ id := "q1", correctAnswer := 0 }] }

/-- A quiz whose timing flag is truthy but whose stored time limit is 0. -/
def c10Quiz : QuizData :=
  { qid := "quizZ", isTimedNum := 1, timeLimit := some 0,
    questions := [{ id := "q1", correctAnswer := 0 }] }

/-- A quiz with an empty question list. -/
def c9Quiz : QuizData :=
  { qid := "quizE", isTimedNum := 0, timeLimit := none, questions := [] }

/-- Four attempts whose scores are 50, 60, 90, 100 in ascending completion
time order. -/
def c3Attempts : List AttemptView :=
  [{ score := 50, completedAtMs := 1000 }, { score := 60, completedAtMs := 2000 },
   { score := 90, completedAtMs := 3000 }, { score := 100, completedAtMs := 4000 }]

/-- A hard biology attempt, matched by the `"hard"` and `"bio"` filters. -/
def c8HardBio : HAttempt :=
  { quiz := { title := "Intro to Biology", topic := "Science", difficulty := "hard" },
    score := 80, completedAtMs := 1000 }

/-- An easy biology attempt: right search match, wrong difficulty. -/
def c8EasyBio : HAttempt :=
  { quiz := { title := "Biology Basics", topic := "Science", difficulty := "easy" },
    score := 90, completedAtMs := 2000 }

/-- A hard maths attempt: right difficulty, no search match. -/
def c8HardMath : HAttempt :=
  { quiz := { title := "Algebra", topic := "Math", difficulty := "hard" },
    score := 70, completedAtMs := 3000 }

/-! Helper lemmas about the timer state machine. -/

lemma tick_of_completed (q : QuizData) (s : Session) (h : s.isCompleted = true) :
    tick q s = (s, false) := by
  simp [tick, h]

lemma tick_of_timeLeft_zero (q : QuizData) (s : Session) (h : s.timeLeft = 0) :
    tick q s = (s, false) := by
  cases hc : s.isCompleted <;> simp [tick, hc, h]

lemma tickRun_of_timeLeft_zero (q : QuizData) (s : Session) (h : s.timeLeft = 0) :
    ∀ n : Nat, tickRun q s n = (s, 0)
  | 0 => rfl
  | n + 1 => by
    simp [tickRun, tick_of_timeLeft_zero q s h, tickRun_of_timeLeft_zero q s h n]

lemma tick_last (q : QuizData) (s : Session) (hc : s.isCompleted = false)
    (hq : q.isTimedNum ≠ 0) (h1 : s.timeLeft = 1) :
    tick q s = ({ s with timeLeft := 0 }, true) := by
  simp [tick, hc, hq, h1]

lemma tick_decr (q : QuizData) (s : Session) (hc : s.isCompleted = false)
    (hq : q.isTimedNum ≠ 0) (h2 : 2 ≤ s.timeLeft) :
    tick q s = ({ s with timeLeft := s.timeLeft - 1 }, false) := by
  have h0 : ¬ s.timeLeft = 0 := by omega
  have h1 : ¬ s.timeLeft ≤ 1 := by omega
  simp [tick, hc, hq, h0, h1]

lemma tickRun_fires_once (q : QuizData) (hq : q.isTimedNum ≠ 0) :
    ∀ (k : Nat) (s : Session) (n : Nat), s.isCompleted = false →
      s.timeLeft = (k : Int) + 1 → k < n →
      (tickRun q s n).2 = 1 ∧ (tickRun q s n).1.timeLeft = 0 := by
  intro k
  induction k with
  | zero =>
    intro s n hc ht hn
    obtain ⟨m, rfl⟩ : ∃ m, n = m + 1 := ⟨n - 1, by omega⟩
    have h1 : s.timeLeft = 1 := by rw [ht]; norm_num
    simp [tickRun, tick_last q s hc hq h1,
          tickRun_of_timeLeft_zero q { s with timeLeft := 0 } rfl m]
  | succ k ih =>
    intro s n hc ht hn
    obtain ⟨m, rfl⟩ : ∃ m, n = m + 1 := ⟨n - 1, by omega⟩
    have h2 : 2 ≤ s.timeLeft := by rw [ht]; push_cast; omega
    have ih2 := ih { s with timeLeft := s.timeLeft - 1 } m hc
      (by simp only []; rw [ht]; push_cast; ring) (by omega)
    simpa [tickRun, tick_decr q s hc hq h2] using ih2

lemma tick_untimed (q : QuizData) (h : q.isTimedNum = 0) (s : Session) :
    tick q s = (s, false) := by
  cases hc : s.isCompleted <;> simp [tick, hc, h]

lemma tickRun_untimed (q : QuizData) (h : q.isTimedNum = 0) (s : Session) :
    ∀ n : Nat, tickRun q s n = (s, 0)
  | 0 => rfl
  | n + 1 => by
    simp [tickRun, tick_untimed q h s, tickRun_untimed q h s n]

/-- C4: for a session over a quiz with timing enabled and limit L minutes, the
countdown starts at 60·L seconds (here written `L * 60` as in the source),
decrements by exactly one per one-second tick while in progress, performs no
decrement once completed, never goes negative, and once at least `L * 60`
ticks have fired with no user action, `handleSubmitQuiz` has been invoked
automatically exactly once and the remaining-time reading is 0. -/
theorem timed_session_countdown (q : QuizData) (L startMs : Int)
    (hT : 0 < q.isTimedNum) (hL : q.timeLimit = some L) (hL1 : 1 ≤ L) :
    (initSession q startMs).timeLeft = L * 60 ∧
    (∀ s : Session, s.isCompleted = false → 1 ≤ s.timeLeft →
      (tick q s).1.timeLeft = s.timeLeft - 1) ∧
    (∀ s : Session, s.isCompleted = true → tick q s = (s, false)) ∧
    (∀ s : Session, 0 ≤ s.timeLeft → 0 ≤ (tick q s).1.timeLeft) ∧
    (∀ n : Nat, L * 60 ≤ (n : Int) →
      (tickRun q (initSession q startMs) n).2 = 1 ∧
      (tickRun q (initSession q startMs) n).1.timeLeft = 0) := by
  have hq : q.isTimedNum ≠ 0 := hT.ne'
  have hinit : (initSession q startMs).timeLeft = L * 60 := by
    simp [initSession, initTimeLeft, hL, hT, (by omega : L ≠ 0)]
  refine ⟨hinit, ?_, tick_of_completed q, ?_, ?_⟩
  · intro s hc h1
    by_cases hle : s.timeLeft ≤ 1
    · have he : s.timeLeft = 1 := by omega
      rw [tick_last q s hc hq he, he]
      norm_num
    · rw [tick_decr q s hc hq (by omega)]
  · intro s h0
    cases hc : s.isCompleted
    · by_cases hz : s.timeLeft = 0
      · rw [tick_of_timeLeft_zero q s hz]; exact h0
      · by_cases hle : s.timeLeft ≤ 1
        · rw [tick_last q s hc hq (by omega)]
        · rw [tick_decr q s hc hq (by omega)]
          simp only []
          omega
    · rw [tick_of_completed q s hc]; exact h0
  · intro n hn
    exact tickRun_fires_once q hq (L * 60 - 1).toNat (initSession q startMs) n rfl
      (by rw [hinit]; omega) (by omega)

/-- Witness for C4 at limit = 1 minute: after 60 one-second ticks on a
concrete timed quiz, exactly one automatic submission was invoked and the
remaining-time reading is 0. -/
theorem timed_session_countdown_witness :
    (tickRun c4Quiz (initSession c4Quiz 0) 60).2 = 1 ∧
    (tickRun c4Quiz (initSession c4Quiz 0) 60).1.timeLeft = 0 :=
  (timed_session_countdown c4Quiz 1 0 (by decide) rfl (by decide)).2.2.2.2 60
    (by norm_num)

/-- C5: for a quiz with timing disabled (`Number(quiz.isTimed) === 0`), timer
ticks never invoke `handleSubmitQuiz` and never change the session, no matter
how many fire: submission can only come from an explicit user action. -/
theorem untimed_no_auto_submit (q : QuizData) (h : q.isTimedNum = 0)
    (s : Session) (n : Nat) :
    tickRun q s n = (s, 0) :=
  tickRun_untimed q h s n

/-- Witness for C5: 3600 ticks (an hour of wall-clock time) on a concrete
untimed quiz leave the freshly loaded session untouched with zero automatic
submissions. -/
theorem untimed_no_auto_submit_witness :
    tickRun c5Quiz (initSession c5Quiz 0) 3600 = (initSession c5Quiz 0, 0) :=
  untimed_no_auto_submit c5Quiz rfl (initSession c5Quiz 0) 3600

/-- C10: for a quiz whose timing flag is truthy but whose time limit is
absent or zero, `loadQuiz` initialises the remaining time to 0, so the
countdown never starts and timer ticks never invoke `handleSubmitQuiz`:
exactly the behaviour of an untimed session. -/
theorem zero_time_limit_behaves_untimed (q : QuizData) (startMs : Int)
    (hT : 0 < q.isTimedNum) (hL : q.timeLimit = none ∨ q.timeLimit = some 0) :
    initTimeLeft q = 0 ∧
    ∀ n : Nat, tickRun q (initSession q startMs) n = (initSession q startMs, 0) := by
  have h0 : initTimeLeft q = 0 := by
    rcases hL with h | h <;> simp [initTimeLeft, h]
  refine ⟨h0, fun n => ?_⟩
  exact tickRun_of_timeLeft_zero q (initSession q startMs) (by simp [initSession, h0]) n

/-- Witness for C10: a concrete quiz with `isTimed = 1` and `timeLimit = 0`
initialises the countdown to 0 and an hour of ticks changes nothing. -/
theorem zero_time_limit_behaves_untimed_witness :
    initTimeLeft c10Quiz = 0 ∧
    tickRun c10Quiz (initSession c10Quiz 0) 3600 = (initSession c10Quiz 0, 0) := by
  obtain ⟨h0, hrun⟩ := zero_time_limit_behaves_untimed c10Quiz 0 (by decide) (Or.inr rfl)
  exact ⟨h0, hrun 3600⟩

lemma correctAnswersOf_le (q : QuizData) (answers : List (String × Nat)) :
    correctAnswersOf q answers ≤ q.questions.length :=
  List.countP_le_length _

/-- C1: on a successful submission over a quiz with at least one question,
the persisted attempt record and the displayed results carry the same score,
equal to `round((correctCount / N) * 100) = round(100 * correctCount / N)`,
and that score lies in [0, 100]. -/
theorem submitted_score_formula (q : QuizData) (s : Session) (nowMs : Int)
    (hN : 1 ≤ q.questions.length) :
    ∃ v : Int,
      v = round (((correctAnswersOf q s.answers : ℚ) /
        (q.questions.length : ℚ)) * 100) ∧
      v = round ((100 * (correctAnswersOf q s.answers : ℚ)) /
        (q.questions.length : ℚ)) ∧
      0 ≤ v ∧ v ≤ 100 ∧
      (handleSubmitQuiz q nowMs true s).1.results =
        some { score := some v, correctAnswers := correctAnswersOf q s.answers,
               totalQuestions := q.questions.length } ∧
      ((handleSubmitQuiz q nowMs true s).2.map fun r => r.score) = [some v] := by
  have hn0 : (0:ℚ) < (q.questions.length : ℚ) := by exact_mod_cast (by omega : 0 < q.questions.length)
  have hcn : correctAnswersOf q s.answers ≤ q.questions.length := correctAnswersOf_le q s.answers
  have hx0 : 0 ≤ ((correctAnswersOf q s.answers : ℚ) / (q.questions.length : ℚ)) * 100 := by
    positivity
  have hx100 : ((correctAnswersOf q s.answers : ℚ) / (q.questions.length : ℚ)) * 100 ≤ 100 := by
    have hr : (correctAnswersOf q s.answers : ℚ) / (q.questions.length : ℚ) ≤ 1 := by
      rw [div_le_one hn0]; exact_mod_cast hcn
    nlinarith
  have hscore : computeScore (correctAnswersOf q s.answers) q.questions.length =
      some (round (((correctAnswersOf q s.answers : ℚ) / (q.questions.length : ℚ)) * 100)) := by
    unfold computeScore
    rw [if_neg (by omega : ¬ q.questions.length = 0)]
  refine ⟨_, rfl, congrArg round (by ring), ?_, ?_, ?_, ?_⟩
  · rw [round_eq]
    exact Int.floor_nonneg.mpr (by linarith)
  · rw [round_eq]
    have h := Int.floor_lt.mpr
      (show ((correctAnswersOf q s.answers : ℚ) / (q.questions.length : ℚ)) * 100 + 1/2 <
        ((101 : Int) : ℚ) by push_cast; linarith)
    omega
  · simp [handleSubmitQuiz, hscore]
  · simp [handleSubmitQuiz, hscore]

/-- Witness for C1, the spec scenario: a 4-question quiz with correct answers
[0,1,2,3] and user answers [0,1,2, unanswered] submits with correctCount 3
and score 75 both in the displayed results and in the persisted record. -/
theorem submitted_score_formula_witness :
    correctAnswersOf c1Quiz c1Session.answers = 3 ∧
    (handleSubmitQuiz c1Quiz 5000 true c1Session).1.results =
      some { score := some 75, correctAnswers := 3, totalQuestions := 4 } ∧
    ((handleSubmitQuiz c1Quiz 5000 true c1Session).2.map fun r => r.score) =
      [some 75] := by
  obtain ⟨v, hv, -, -, -, hres, hrec⟩ :=
    submitted_score_formula c1Quiz c1Session 5000 (by decide)
  have hv75 : v = 75 := by
    have hcount : correctAnswersOf c1Quiz c1Session.answers = 3 := by decide
    have hlen : c1Quiz.questions.length = 4 := by decide
    rw [hv, hcount, hlen]
    norm_num [round_eq]
  rw [hv75] at hres hrec
  exact ⟨by decide, hres.trans (by decide), hrec⟩

/-- C9: the score computation divides by the question count with no guard, so
for a quiz with an empty question list the computed score is 0/0 = NaN
(modelled `none`): the value persisted and displayed is not an integer in
[0, 100], so the score-range guarantee needs the precondition of at least one
question. -/
theorem empty_quiz_score_not_a_number (q : QuizData) (s : Session) (nowMs : Int)
    (hQ : q.questions = []) :
    computeScore (correctAnswersOf q s.answers) q.questions.length = none ∧
    (handleSubmitQuiz q nowMs true s).1.results =
      some { score := none, correctAnswers := 0, totalQuestions := 0 } ∧
    ((handleSubmitQuiz q nowMs true s).2.map fun r => r.score) = [none] := by
  simp [handleSubmitQuiz, computeScore, correctAnswersOf, hQ]

/-- Witness for C9: submitting the concrete empty quiz persists and displays
a NaN score. -/
theorem empty_quiz_score_not_a_number_witness :
    computeScore (correctAnswersOf c9Quiz []) c9Quiz.questions.length = none ∧
    (handleSubmitQuiz c9Quiz 1000 true (initSession c9Quiz 0)).1.results =
      some { score := none, correctAnswers := 0, totalQuestions := 0 } :=
  ⟨(empty_quiz_score_not_a_number c9Quiz (initSession c9Quiz 0) 1000 rfl).1,
   (empty_quiz_score_not_a_number c9Quiz (initSession c9Quiz 0) 1000 rfl).2.1⟩

/-- C6: when the persistence call of `handleSubmitQuiz` fails, no attempt
record is created, the session stays in progress with its answer map, current
question index and start timestamp unchanged, a failure message is surfaced,
and a later retry that succeeds completes the session and persists exactly
one record. -/
theorem failed_submit_preserves_session (q : QuizData) (s : Session)
    (nowMs retryMs : Int) (hC : s.isCompleted = false) :
    (handleSubmitQuiz q nowMs false s).2 = [] ∧
    (handleSubmitQuiz q nowMs false s).1.isCompleted = false ∧
    (handleSubmitQuiz q nowMs false s).1.answers = s.answers ∧
    (handleSubmitQuiz q nowMs false s).1.currentQuestionIndex = s.currentQuestionIndex ∧
    (handleSubmitQuiz q nowMs false s).1.startTimeMs = s.startTimeMs ∧
    (handleSubmitQuiz q nowMs false s).1.alertMsg = some "Failed to submit quiz" ∧
    (handleSubmitQuiz q retryMs true (handleSubmitQuiz q nowMs false s).1).1.isCompleted = true ∧
    (handleSubmitQuiz q retryMs true (handleSubmitQuiz q nowMs false s).1).2.length = 1 := by
  simp [handleSubmitQuiz, hC]

/-- Witness for C6 on a concrete session: a failed submission leaves the
state intact and retryable, and the retry persists one record. -/
theorem failed_submit_preserves_session_witness :
    (handleSubmitQuiz c1Quiz 5000 false c1Session).2 = [] ∧
    (handleSubmitQuiz c1Quiz 5000 false c1Session).1.isCompleted = false ∧
    (handleSubmitQuiz c1Quiz 6000 true
      (handleSubmitQuiz c1Quiz 5000 false c1Session).1).2.length = 1 := by
  obtain ⟨h1, h2, -, -, -, -, -, h8⟩ :=
    failed_submit_preserves_session c1Quiz c1Session 5000 6000 rfl
  exact ⟨h1, h2, h8⟩

/-- C2 fails on the code: `handleSubmitQuiz` has no in-flight or completion
guard (its only early return checks `quiz` and `startTime`), so two
invocations that both start before the first one's create call resolves each
persist an attempt record — two records for one session. -/
theorem overlapping_submits_create_two_records :
    (overlappingSubmitRecords c1Quiz 5000 6000 c1Session).length = 2 := rfl

/-- C3 fails on the code: `calculateStats` takes its halves from the attempt
list in component-state order, which `loadAnalytics` fetches ordered by
completion timestamp descending; on the spec scenario (scores 50, 60, 90,
100 in ascending time order) it computes round(55 − 95) = −40, while the
spec formula over the time-ascending window yields 40. -/
theorem improvement_sign_flipped :
    analyticsImprovement c3Attempts = -40 ∧ specImprovement c3Attempts = 40 := by
  constructor
  · norm_num [analyticsImprovement, c3Attempts, orderByCompletedAtDesc, attDesc,
      List.insertionSort, List.orderedInsert, improvement, round_eq]
  · norm_num [specImprovement, c3Attempts, attAsc,
      List.insertionSort, List.orderedInsert, round_eq]

/-- C7: navigation clamps the index into [0, N−1] — Previous at 0 stays at 0,
Next at N−1 stays at N−1, and from any valid index both moves land on a valid
index; the Next control is disabled exactly when the current question has no
recorded answer, while the Previous control's disabled condition is only
being at index 0, independent of the answer map. -/
theorem navigation_clamps (q : QuizData) (answers : List (String × Nat)) (i : Int)
    (hN : 1 ≤ q.questions.length) (hi0 : 0 ≤ i)
    (hiN : i ≤ (q.questions.length : Int) - 1) :
    (0 ≤ prevClick i ∧ prevClick i ≤ (q.questions.length : Int) - 1) ∧
    (0 ≤ nextClick q.questions.length i ∧
      nextClick q.questions.length i ≤ (q.questions.length : Int) - 1) ∧
    prevClick 0 = 0 ∧
    nextClick q.questions.length ((q.questions.length : Int) - 1) =
      (q.questions.length : Int) - 1 ∧
    (∀ question, questionAt q i = some question →
      (nextDisabled q answers i = true ↔ answers.lookup question.id = none)) ∧
    (prevDisabled i = true ↔ i = 0) := by
  have hN' : (1 : Int) ≤ (q.questions.length : Int) := by exact_mod_cast hN
  refine ⟨⟨le_max_left 0 _, max_le (by linarith) (by linarith)⟩,
          ⟨le_min (by linarith) (by linarith), min_le_left _ _⟩,
          by norm_num [prevClick], min_eq_left (by linarith), ?_, ?_⟩
  · intro question h
    simp [nextDisabled, h, Option.isNone_iff_eq_none]
  · simp [prevDisabled]

/-- Witness for C7 on the concrete 4-question quiz at the last index:
Previous from 0 resolves to 0, and Next is disabled there because question
"q4" is unanswered. -/
theorem navigation_clamps_witness :
    prevClick 0 = 0 ∧
    nextDisabled c1Quiz c1Session.answers 3 = true := by
  obtain ⟨-, -, hp, -, hdis, -⟩ :=
    navigation_clamps c1Quiz c1Session.answers 3 (by decide) (by decide) (by decide)
  refine ⟨hp, ?_⟩
  exact (hdis { id := "q4", correctAnswer := 3 } (by decide)).mpr (by decide)

/-- C8: an attempt appears in the history view's filtered list exactly when
it was in the fetched list, its quiz difficulty equals the selected filter
(any attempt passes when the filter is "all"), and its quiz title or topic
contains the search term case-insensitively. -/
theorem history_filter_characterization (searchTerm difficultyFilter : String)
    (byDate : Bool) (l : List HAttempt) (a : HAttempt)
    (hterm : searchTerm ≠ "") (hdiff : difficultyFilter ≠ "all") :
    (a ∈ filteredAttempts searchTerm difficultyFilter byDate l ↔
      a ∈ l ∧ a.quiz.difficulty = difficultyFilter ∧
        (ciContains a.quiz.title searchTerm = true ∨
         ciContains a.quiz.topic searchTerm = true)) ∧
    (a ∈ filteredAttempts searchTerm "all" byDate l ↔
      a ∈ l ∧ (ciContains a.quiz.title searchTerm = true ∨
               ciContains a.quiz.topic searchTerm = true)) := by
  have h1 : (searchTerm == "") = false := beq_eq_false_iff_ne.mpr hterm
  have h2 : (difficultyFilter == "all") = false := beq_eq_false_iff_ne.mpr hdiff
  constructor
  · rw [filteredAttempts, List.mem_insertionSort, List.mem_filter]
    simp only [matchesSearch, matchesDifficulty, h1, h2, Bool.false_or,
      Bool.and_eq_true, Bool.or_eq_true, beq_iff_eq]
    tauto
  · rw [filteredAttempts, List.mem_insertionSort, List.mem_filter]
    simp only [matchesSearch, matchesDifficulty, h1, Bool.false_or,
      Bool.and_eq_true, Bool.or_eq_true, beq_iff_eq, beq_self_eq_true, Bool.true_or]
    tauto

/-- Witness for C8, the spec scenario: with search "bio" and difficulty
"hard", the hard biology attempt is retained while the easy biology and hard
maths attempts are excluded. -/
theorem history_filter_characterization_witness :
    c8HardBio ∈ filteredAttempts "bio" "hard" true [c8HardBio, c8EasyBio, c8HardMath] ∧
    c8EasyBio ∉ filteredAttempts "bio" "hard" true [c8HardBio, c8EasyBio, c8HardMath] ∧
    c8HardMath ∉ filteredAttempts "bio" "hard" true [c8HardBio, c8EasyBio, c8HardMath] := by
  refine ⟨?_, ?_, ?_⟩
  · exact (history_filter_characterization "bio" "hard" true
      [c8HardBio, c8EasyBio, c8HardMath] c8HardBio (by decide) (by decide)).1.mpr
      (by decide)
  · intro hmem
    have := (history_filter_characterization "bio" "hard" true
      [c8HardBio, c8EasyBio, c8HardMath] c8EasyBio (by decide) (by decide)).1.mp hmem
    revert this
    decide
  · intro hmem
    have := (history_filter_characterization "bio" "hard" true
      [c8HardBio, c8EasyBio, c8HardMath] c8HardMath (by decide) (by decide)).1.mp hmem
    revert this
    decide

end QuizApp
